import Mathlib

/-!
Shallow embedding of the row-to-field mapping core of the `fill1040`
repository (TypeScript sources under `src/`), together with theorems
settling the frozen claims about it.

Conventions of the embedding:
* JavaScript numbers are modelled as `ℚ` (exact arithmetic); `Date` values
  are modelled by their millisecond timestamp as `ℤ` (`Date.getTime()`).
* JavaScript objects used as string-keyed maps are modelled as association
  lists `List (String × _)` in most-recent-write-first order, so that
  `List.lookup` realises JavaScript property lookup (later writes shadow
  earlier ones).
* `null`/`undefined`/missing properties are conflated into `JsVal.undefOrNull`
  (the code distinguishes them nowhere that matters to the claims).
* Host-environment behaviour that the code delegates to the JS runtime
  (generic `new Date(string)` parsing, `parseFloat`, number/date
  stringification, local-timezone date rendering) is kept abstract in a
  `JsEnv` parameter; no claim depends on a particular host behaviour.
-/

namespace Fill1040

/-- A JavaScript value as it occurs in parsed spreadsheet cells and in
produced field maps: a string, a number, a `Date` (by epoch milliseconds),
or `null`/`undefined`. -/
inductive JsVal where
  | str (s : String)
  | num (q : ℚ)
  | date (ms : ℤ)
  | undefOrNull
deriving DecidableEq, Repr

/-- One spreadsheet row: an ordered header → cell-value object
(`ExcelRow` in `src/src/types/index.ts`). -/
abbrev ExcelRow := List (String × JsVal)

/-- A flat physical-field-identifier → value map (`VariableMap`).
Most-recent write first; `List.lookup` is JS property read. -/
abbrev VariableMap := List (String × JsVal)

/-- `FormsData`: document-instance identifier → field map. -/
abbrev FormsData := List (String × VariableMap)

/-- Host-runtime behaviour the code delegates to JavaScript; abstract
because no claim depends on it. -/
structure JsEnv where
  /-- `parseFloat s` after the code's own `$`/`,` stripping; `none` models `NaN`. -/
  jsParseFloat : String → Option ℚ
  /-- `new Date(s).getTime()` generic string parsing. -/
  jsDateOfString : String → ℤ
  /-- `String(number)`. -/
  jsStrOfNum : ℚ → String
  /-- `String(date)`. -/
  jsStrOfDate : ℤ → String
  /-- The local-timezone `MM/DD/YYYY` rendering used by `formatDate`'s
  `Date` branch (`getMonth`/`getDate`/`getFullYear`). -/
  jsFmtDateLocal : ℤ → String

/-- JS property read `row[col]`: missing property is `undefined`. -/
def rowGet (r : ExcelRow) (col : String) : JsVal :=
  (List.lookup col r).getD .undefOrNull

/-- Property read through an optional column name (`row[columnMap.code]`
where the column may be absent from the map). -/
def rowGetOpt (r : ExcelRow) (col : Option String) : JsVal :=
  match col with
  | none => .undefOrNull
  | some c => rowGet r c

/-- JS truthiness test on a cell value (`value || fallback`). -/
def jsFalsy : JsVal → Bool
  | .undefOrNull => true
  | .str s => s == ""
  | .num q => q == 0
  | .date _ => false

/-- `value || dflt`. -/
def jsOr (v dflt : JsVal) : JsVal := if jsFalsy v then dflt else v

/-- `String(value)` conversion. -/
def jsString (env : JsEnv) : JsVal → String
  | .str s => s
  | .num q => env.jsStrOfNum q
  | .date ms => env.jsStrOfDate ms
  | .undefOrNull => "undefined"

/-- `FormParser.isEmpty` (src/src/parsers/FormParser.ts:62-64):
`value === null || value === undefined || value === ''`. -/
def isEmptyVal : JsVal → Bool
  | .undefOrNull => true
  | .str s => s == ""
  | _ => false

/-! ### String helpers modelling `String.prototype.includes` -/

/-- JavaScript `toLowerCase()` (ASCII-adequate, character-wise);
implemented on the character list so the kernel can evaluate it. -/
def jsToLower (s : String) : String := String.mk (s.toList.map Char.toLower)

/-- Whitespace test for `trim()`. -/
def isWsChar (c : Char) : Bool := c == ' ' || c == '\t' || c == '\n' || c == '\r'

/-- JavaScript `trim()`: strip leading and trailing whitespace. -/
def jsTrim (s : String) : String :=
  String.mk (((s.toList.dropWhile isWsChar).reverse.dropWhile isWsChar).reverse)

/-- `hay` starts with `need` (character lists). -/
def startsL : List Char → List Char → Bool
  | _, [] => true
  | [], _ :: _ => false
  | c :: cs, d :: ds => c == d && startsL cs ds

/-- `need` occurs contiguously inside `hay` (character lists). -/
def hasSub : List Char → List Char → Bool
  | [], need => need.isEmpty
  | hay@(_ :: t), need => startsL hay need || hasSub t need

/-- JavaScript `hay.includes(need)`. -/
def jsIncludes (hay need : String) : Bool :=
  hasSub hay.toList need.toList

/-! ### Dates

JavaScript `Date` UTC getters follow the proleptic Gregorian calendar;
`civilFromDays` is the standard days-since-epoch → (year, month, day)
conversion and models `getUTCFullYear`/`getUTCMonth`/`getUTCDate`. -/

/-- Convert a count of days since 1970-01-01 to (year, month, day),
proleptic Gregorian, as the JS `Date` UTC getters do. -/
def civilFromDays (z0 : ℤ) : ℤ × ℕ × ℕ :=
  let z := z0 + 719468
  let era := z.fdiv 146097
  let doe := (z - era * 146097).toNat
  let yoe := (doe - doe / 1460 + doe / 36524 - doe / 146096) / 365
  let doy := doe - (365 * yoe + yoe / 4 - yoe / 100)
  let mp := (5 * doy + 2) / 153
  let d := doy - (153 * mp + 2) / 5 + 1
  let m := if mp < 10 then mp + 3 else mp - 9
  (((yoe : ℤ) + era * 400) + (if m ≤ 2 then 1 else 0), m, d)

/-- `String(n).padStart(2, "0")`. -/
def padStart2 (s : String) : String :=
  if s.length ≥ 2 then s else if s.length = 1 then "0" ++ s else "00"

/-- Render an epoch-day count as `MM/DD/YYYY`, the way
`excelDateToString` renders its constructed `Date` via UTC getters. -/
def dateStringOfDays (days : ℤ) : String :=
  let ymd := civilFromDays days
  padStart2 (toString ymd.2.1) ++ "/" ++ padStart2 (toString ymd.2.2) ++ "/" ++ toString ymd.1

/-- `FormParser.excelDateToString` (src/src/parsers/FormParser.ts:69-79):
`utc_days = floor(serial − 25569)`, `Date(utc_days*86400*1000)`, rendered
`MM/DD/YYYY` from the UTC getters. -/
def excelDateToString (serial : ℚ) : String :=
  let days : ℤ := Rat.floor (serial - 25569)
  let secs : ℤ := days * 86400
  let ms : ℤ := secs * 1000
  let ymd := civilFromDays (ms.fdiv 86400000)
  padStart2 (toString ymd.2.1) ++ "/" ++ padStart2 (toString ymd.2.2) ++ "/" ++ toString ymd.1

/-- `FormParser.formatDate` (src/src/parsers/FormParser.ts:84-95). -/
def formatDate (env : JsEnv) : JsVal → String
  | .num q => excelDateToString q
  | .date ms => env.jsFmtDateLocal ms
  | v => jsString env v

/-- `FormParser.parseNumber` (src/src/parsers/FormParser.ts:100-104):
numbers pass through, otherwise strip `$`/`,` and `parseFloat`, falling
back to the default on `NaN`. -/
def parseNumber (env : JsEnv) (v : JsVal) (dflt : ℚ) : ℚ :=
  match v with
  | .num q => q
  | _ =>
    (env.jsParseFloat (((jsString env v).replace "$" "").replace "," "")).getD dflt

/-- `F8949Parser.parseDate` (src/src/parsers/F8949Parser.ts:174-183),
returning the resulting `Date`'s millisecond timestamp. -/
def parseDateMs (env : JsEnv) : JsVal → ℤ
  | .date ms => ms
  | .num q => Rat.floor (q - 25569) * 86400 * 1000
  | v => env.jsDateOfString (jsString env v)

/-- `F8949Parser.ONE_YEAR_MS = 365 * 24 * 60 * 60 * 1000`
(src/src/parsers/F8949Parser.ts:24). -/
def ONE_YEAR_MS : ℤ := 365 * 24 * 60 * 60 * 1000

/-- `F8949Parser.isShortTermGain` (src/src/parsers/F8949Parser.ts:185-188):
`sellDate.getTime() − purchaseDate.getTime() < ONE_YEAR_MS`. -/
def isShortTermGain (purchaseMs sellMs : ℤ) : Bool :=
  sellMs - purchaseMs < ONE_YEAR_MS

/-! ### F8949 column detection and transaction parsing -/

/-- A normalized capital transaction (`CapitalTransaction`,
src/src/parsers/F8949Parser.ts:10-20). -/
structure CapitalTransaction where
  quantity : ℚ
  name : String
  purchaseDate : String
  sellDate : String
  purchasePrice : ℚ
  sellPrice : ℚ
  code : String
  adjustment : ℚ
  isShortTerm : Bool
deriving DecidableEq, Repr

/-- The detected column-role map (the `columnMap` record built by
`detectColumns`); `code` and `adjustment` are the optional roles. -/
structure ColumnMap where
  quantity : String
  name : String
  purchaseDate : String
  sellDate : String
  purchasePrice : String
  sellPrice : String
  code : Option String
  adjustment : Option String
deriving DecidableEq, Repr

/-- `F8949Parser.EXPECTED_HEADERS` (src/src/parsers/F8949Parser.ts:27-36). -/
def expectedHeaders (role : String) : List String :=
  if role = "quantity" then ["quantity", "qty", "shares", "units"]
  else if role = "name" then ["name", "description", "security", "asset"]
  else if role = "purchaseDate" then ["purchase date", "acquired", "buy date", "date acquired"]
  else if role = "sellDate" then ["sell date", "sold", "sale date", "date sold"]
  else if role = "purchasePrice" then ["purchase price", "cost basis", "basis", "cost"]
  else if role = "sellPrice" then ["sell price", "proceeds", "sale price", "sales proceeds"]
  else if role = "code" then ["code", "code(s)", "codes"]
  else if role = "adjustment" then ["adjustment", "amount of adjustment", "adj"]
  else []

/-- One role resolution step of `detectColumns`: first header of the row
whose lower-cased trimmed text bidirectionally substring-matches one of
the role's synonyms. -/
def findHeader (r : ExcelRow) (role : String) : Option String :=
  (r.map Prod.fst).find? (fun col =>
    (expectedHeaders role).any (fun ph =>
      jsIncludes (jsTrim (jsToLower col)) ph || jsIncludes ph (jsTrim (jsToLower col))))

/-- `F8949Parser.detectColumns` (src/src/parsers/F8949Parser.ts:132-172):
all six required roles must resolve, the two optional ones may not. -/
def detectColumns (firstRow : ExcelRow) : Option ColumnMap :=
  match findHeader firstRow "quantity", findHeader firstRow "name",
        findHeader firstRow "purchaseDate", findHeader firstRow "sellDate",
        findHeader firstRow "purchasePrice", findHeader firstRow "sellPrice" with
  | some q, some n, some pd, some sd, some pp, some sp =>
    some ⟨q, n, pd, sd, pp, sp, findHeader firstRow "code", findHeader firstRow "adjustment"⟩
  | _, _, _, _, _, _ => none

/-- The transaction built from one row in the loop body of
`parseTransactions` (src/src/parsers/F8949Parser.ts:108-123). -/
def mkTransaction (env : JsEnv) (cm : ColumnMap) (r : ExcelRow) : CapitalTransaction :=
  { quantity := parseNumber env (rowGet r cm.quantity) 0
    name := jsString env (jsOr (rowGet r cm.name) (.str ""))
    purchaseDate := formatDate env (rowGet r cm.purchaseDate)
    sellDate := formatDate env (rowGet r cm.sellDate)
    purchasePrice := parseNumber env (rowGet r cm.purchasePrice) 0
    sellPrice := parseNumber env (rowGet r cm.sellPrice) 0
    code := jsString env (jsOr (rowGetOpt r cm.code) (.str ""))
    adjustment := parseNumber env (jsOr (rowGetOpt r cm.adjustment) (.num 0)) 0
    isShortTerm := isShortTermGain (parseDateMs env (rowGet r cm.purchaseDate))
                                   (parseDateMs env (rowGet r cm.sellDate)) }

/-- The row loop of `parseTransactions` (src/src/parsers/F8949Parser.ts:105-127):
skip a row whose quantity cell is empty, else append its transaction. -/
def parseTransactionRows (env : JsEnv) (cm : ColumnMap) : List ExcelRow → List CapitalTransaction
  | [] => []
  | r :: rest =>
    if isEmptyVal (rowGet r cm.quantity) then parseTransactionRows env cm rest
    else mkTransaction env cm r :: parseTransactionRows env cm rest

/-- `F8949Parser.parseTransactions` (src/src/parsers/F8949Parser.ts:92-130):
detect columns from the first row, then run the row loop; return no
transactions when detection fails. -/
def parseTransactions (env : JsEnv) (rows : List ExcelRow) : List CapitalTransaction :=
  match detectColumns (rows.headD []) with
  | none => []
  | some cm => parseTransactionRows env cm rows

/-! ### The generated year-2025 F8949 mapping table (src/unnamed/part_002) -/

/-- The zero-padded field number `8*i + j + 3` used by
`generateF8949Mapping` (src/unnamed/part_002:97-99). -/
def paddedFieldNum (i j : ℕ) : String :=
  let fieldNum := 8 * i + j + 3
  if fieldNum < 10 then "0" ++ toString fieldNum else toString fieldNum

/-- One row-cell entry of the short-term block of the mapping. -/
def stEntry (i j : ℕ) : String × String :=
  ("st_r" ++ toString i ++ "_c" ++ toString j,
   "topmostSubform[0].Page1[0].Table_Line1_Part1[0].Row" ++ toString (i + 1)
     ++ "[0].f1_" ++ paddedFieldNum i j ++ "[0]")

/-- One row-cell entry of the long-term block of the mapping. -/
def ltEntry (i j : ℕ) : String × String :=
  ("lt_r" ++ toString i ++ "_c" ++ toString j,
   "topmostSubform[0].Page2[0].Table_Line1_Part2[0].Row" ++ toString (i + 1)
     ++ "[0].f2_" ++ paddedFieldNum i j ++ "[0]")

/-- `generateF8949Mapping` (src/unnamed/part_002:91-127): 14×8 short-term
row cells, 4 short-term totals, 14×8 long-term row cells, 4 long-term
totals, in insertion order (all keys are distinct, so association-list
lookup agrees with JS object lookup). -/
def generateF8949Mapping : List (String × String) :=
  ((List.range 14).map (fun i => (List.range 8).map (fun j => stEntry i j))).flatten
    ++ [("st_total_proceed", "topmostSubform[0].Page1[0].f1_91[0]"),
        ("st_total_cost", "topmostSubform[0].Page1[0].f1_92[0]"),
        ("st_total_adj", "topmostSubform[0].Page1[0].f1_94[0]"),
        ("st_total_gl", "topmostSubform[0].Page1[0].f1_95[0]")]
    ++ ((List.range 14).map (fun i => (List.range 8).map (fun j => ltEntry i j))).flatten
    ++ [("lt_total_proceed", "topmostSubform[0].Page2[0].f2_91[0]"),
        ("lt_total_cost", "topmostSubform[0].Page2[0].f2_92[0]"),
        ("lt_total_adj", "topmostSubform[0].Page2[0].f2_94[0]"),
        ("lt_total_gl", "topmostSubform[0].Page2[0].f2_95[0]")]

/-- `getF8949Mapping` (src/unnamed/part_002:135-137): the per-year record
holds only 2025 and falls back to it. -/
def getF8949Mapping (year : ℕ) : List (String × String) :=
  (List.lookup year [(2025, generateF8949Mapping)]).getD generateF8949Mapping

/-- JS `mapping[key]` used as an object property key: a missing entry is
`undefined`, which stringifies to the property key `"undefined"`. -/
def mapGet (mapping : List (String × String)) (k : String) : String :=
  (List.lookup k mapping).getD "undefined"

/-! ### Chunking and aggregation (`chunkTransactions`, `combineForms`) -/

/-- `F8949Parser.MAX_ROWS_PER_FORM = 14` (src/src/parsers/F8949Parser.ts:23). -/
def MAX_ROWS_PER_FORM : ℕ := 14

/-- The `for (i += MAX_ROWS_PER_FORM) … slice(i, i+MAX)` stride-14 partition
of `chunkTransactions` (src/src/parsers/F8949Parser.ts:197-198). -/
def chunkList (l : List CapitalTransaction) : List (List CapitalTransaction) :=
  if l = [] then []
  else l.take MAX_ROWS_PER_FORM :: chunkList (l.drop MAX_ROWS_PER_FORM)
termination_by l.length
decreasing_by
  simp only [List.length_drop]
  have : l.length ≠ 0 := by simpa [List.length_eq_zero] using by assumption
  simp [MAX_ROWS_PER_FORM]
  omega

/-- The `chunk.forEach((transaction, idx) => …)` body of
`chunkTransactions` (src/src/parsers/F8949Parser.ts:206-242): writes the
8 mapped row cells (column 5 only when the code is truthy) and accumulates
the four running totals. State is (formData, totalProceeds, totalCost,
totalGainLoss, totalAdjustment). -/
def chunkLoop (env : JsEnv) (mapping : List (String × String)) (pfx : String) :
    ℕ → List CapitalTransaction → VariableMap × ℚ × ℚ × ℚ × ℚ → VariableMap × ℚ × ℚ × ℚ × ℚ
  | _, [], st => st
  | idx, t :: rest, (fd, tp, tc, tg, ta) =>
    let gainLoss := t.sellPrice - t.purchasePrice - t.adjustment
    let rk := fun (c : String) => mapGet mapping (pfx ++ "_r" ++ toString idx ++ c)
    let q := env.jsStrOfNum t.quantity
    let fd := (rk "_c0", JsVal.str (q ++ " sh. " ++ t.name)) :: fd
    let fd := (rk "_c1", JsVal.str t.purchaseDate) :: fd
    let fd := (rk "_c2", JsVal.str t.sellDate) :: fd
    let fd := (rk "_c3", JsVal.num t.sellPrice) :: fd
    let fd := (rk "_c4", JsVal.num t.purchasePrice) :: fd
    let fd := if t.code ≠ "" then (rk "_c5", JsVal.str t.code) :: fd else fd
    let fd := (rk "_c6", JsVal.num t.adjustment) :: fd
    let fd := (rk "_c7", JsVal.num gainLoss) :: fd
    chunkLoop env mapping pfx (idx + 1) rest
      (fd, tp + t.sellPrice, tc + t.purchasePrice, tg + gainLoss, ta + t.adjustment)

/-- One chunk's field map: row-cell writes followed by the four totals
writes (src/src/parsers/F8949Parser.ts:199-250). -/
def chunkFormData (env : JsEnv) (mapping : List (String × String)) (pfx : String)
    (chunk : List CapitalTransaction) : VariableMap :=
  let res := chunkLoop env mapping pfx 0 chunk ([], 0, 0, 0, 0)
  (mapGet mapping (pfx ++ "_total_adj"), JsVal.num res.2.2.2.2) ::
  (mapGet mapping (pfx ++ "_total_gl"), JsVal.num res.2.2.2.1) ::
  (mapGet mapping (pfx ++ "_total_cost"), JsVal.num res.2.2.1) ::
  (mapGet mapping (pfx ++ "_total_proceed"), JsVal.num res.2.1) :: res.1

/-- `F8949Parser.chunkTransactions` (src/src/parsers/F8949Parser.ts:190-254). -/
def chunkTransactions (env : JsEnv) (transactions : List CapitalTransaction)
    (pfx : String) (mapping : List (String × String)) : List VariableMap :=
  (chunkList transactions).map (chunkFormData env mapping pfx)

/-- The JS object-spread merge `{...a, ...b}` where `b`'s entries
overwrite `a`'s: in most-recent-first association lists, `b ++ a`. -/
def mergeMaps (a b : VariableMap) : VariableMap := b ++ a

/-- `F8949Parser.combineForms` (src/src/parsers/F8949Parser.ts:256-268):
instances `f8949_1 .. f8949_max(m,n)`, instance `i+1` the spread-merge of
short-term chunk `i` and long-term chunk `i` (absent chunks are `{}`). -/
def combineForms (shortTermForms longTermForms : List VariableMap) : FormsData :=
  (List.range (max shortTermForms.length longTermForms.length)).map (fun i =>
    ("f8949_" ++ toString (i + 1),
     mergeMaps (shortTermForms.getD i []) (longTermForms.getD i [])))

/-- The eight per-row logical-cell key suffixes emitted by `chunkLoop`. -/
def rowSufs : List String := ["_c0", "_c1", "_c2", "_c3", "_c4", "_c5", "_c6", "_c7"]

/-- The four chunk-total logical-key suffixes. -/
def totSufs : List String := ["_total_proceed", "_total_cost", "_total_gl", "_total_adj"]

/-- The physical-identifier prefix shared by every short-term mapping value. -/
def stPreL : List Char := "topmostSubform[0].Page1[0].".toList

/-- The physical-identifier prefix shared by every long-term mapping value. -/
def ltPreL : List Char := "topmostSubform[0].Page2[0].".toList

/-! ### Validation results and the two `parse` pipelines -/

/-- One `{field, message, severity}` validation entry. -/
structure VEntry where
  field : String
  message : String
  severity : String
deriving DecidableEq, Repr

/-- `ValidationResult` (src/src/types/index.ts). -/
structure ValidationResult where
  isValid : Bool
  errors : List VEntry
  warnings : List VEntry
deriving DecidableEq, Repr

/-- `FormParser.createValidationResult` (src/src/parsers/FormParser.ts:47-57):
stamps the severities onto the given `{field, message}` pairs. -/
def createValidationResult (ok : Bool) (errs warns : List (String × String)) : ValidationResult :=
  ⟨ok, errs.map (fun e => ⟨e.1, e.2, "error"⟩), warns.map (fun w => ⟨w.1, w.2, "warning"⟩)⟩

/-- `ParseResult` (src/src/types/index.ts). `formIds` is
`Object.keys(formsData)` in the 8949 pipeline. -/
structure ParseResult where
  formIds : List String
  formsData : FormsData
  validation : ValidationResult
deriving DecidableEq, Repr

/-- `ParseOptions`: tax year, validate flag, skip-empty-rows flag. -/
structure ParseOptions where
  year : ℕ
  validate : Bool
  skipEmptyRows : Bool
deriving DecidableEq, Repr

/-- `F8949Parser.validate` (src/src/parsers/F8949Parser.ts:270-298):
error when no forms; per-form warnings for empty maps and for negative
numeric values whose key contains `_c3`. -/
def f8949validate (data : FormsData) : ValidationResult :=
  let errs := if data.isEmpty then [("forms", "No forms generated")] else []
  let warns := (data.map (fun fd =>
    (if fd.2.isEmpty then [(fd.1, "Form has no data")] else []) ++
    fd.2.filterMap (fun kv =>
      match kv.2 with
      | .num q =>
        if jsIncludes kv.1 "_c3" && q < 0 then
          some (fd.1 ++ "." ++ kv.1, "Negative proceeds amount detected")
        else none
      | _ => none))).flatten
  createValidationResult errs.isEmpty errs warns

/-- `F8949Parser.parse` (src/src/parsers/F8949Parser.ts:49-90). -/
def f8949parse (env : JsEnv) (rows : List ExcelRow) (options : ParseOptions) : ParseResult :=
  if rows = [] then
    ⟨[], [], createValidationResult false [("sheet", "No data found in sheet")] []⟩
  else
    let transactions := parseTransactions env rows
    if transactions = [] then
      ⟨[], [], createValidationResult false [("data", "No valid transactions found")] []⟩
    else
      let shortTerm := transactions.filter (fun t => t.isShortTerm)
      let longTerm := transactions.filter (fun t => !t.isShortTerm)
      let mapping := getF8949Mapping options.year
      let shortTermForms := chunkTransactions env shortTerm "st" mapping
      let longTermForms := chunkTransactions env longTerm "lt" mapping
      let formsData := combineForms shortTermForms longTermForms
      let formIds := formsData.map Prod.fst
      let validation :=
        if options.validate then f8949validate formsData
        else createValidationResult true [] []
      ⟨formIds, formsData, validation⟩

/-! ### The F1040 line-oriented pipeline (src/unnamed/part_000) -/

/-- The year-2025 F1040 mapping `f1040_2025` (src/unnamed/part_002:14-74). -/
def f1040_2025 : List (String × String) :=
  [("Line 1a", "topmostSubform[0].Page1[0].f1_47[0]"),
   ("Line 1b", "topmostSubform[0].Page1[0].f1_48[0]"),
   ("Line 1c", "topmostSubform[0].Page1[0].f1_49[0]"),
   ("Line 1d", "topmostSubform[0].Page1[0].f1_50[0]"),
   ("Line 1e", "topmostSubform[0].Page1[0].f1_51[0]"),
   ("Line 1f", "topmostSubform[0].Page1[0].f1_52[0]"),
   ("Line 1g", "topmostSubform[0].Page1[0].f1_53[0]"),
   ("Line 1ho", "topmostSubform[0].Page1[0].f1_54[0]"),
   ("Line 1h", "topmostSubform[0].Page1[0].f1_55[0]"),
   ("Line 1i", "topmostSubform[0].Page1[0].f1_56[0]"),
   ("Line 1z", "topmostSubform[0].Page1[0].f1_57[0]"),
   ("Line 2a", "topmostSubform[0].Page1[0].f1_58[0]"),
   ("Line 2b", "topmostSubform[0].Page1[0].f1_59[0]"),
   ("Line 3a", "topmostSubform[0].Page1[0].f1_60[0]"),
   ("Line 3b", "topmostSubform[0].Page1[0].f1_61[0]"),
   ("Line 4a", "topmostSubform[0].Page1[0].f1_62[0]"),
   ("Line 4b", "topmostSubform[0].Page1[0].f1_63[0]"),
   ("Line 5a", "topmostSubform[0].Page1[0].f1_65[0]"),
   ("Line 5b", "topmostSubform[0].Page1[0].f1_66[0]"),
   ("Line 6a", "topmostSubform[0].Page1[0].f1_68[0]"),
   ("Line 6b", "topmostSubform[0].Page1[0].f1_69[0]"),
   ("Line 7a", "topmostSubform[0].Page1[0].f1_70[0]"),
   ("Line 7b", "topmostSubform[0].Page1[0].f1_71[0]"),
   ("Line 8", "topmostSubform[0].Page1[0].f1_72[0]"),
   ("Line 9", "topmostSubform[0].Page1[0].f1_73[0]"),
   ("Line 10", "topmostSubform[0].Page1[0].f1_74[0]"),
   ("Line 11a", "topmostSubform[0].Page1[0].f1_75[0]"),
   ("Line 11b", "topmostSubform[0].Page2[0].f2_01[0]"),
   ("Line 12e", "topmostSubform[0].Page2[0].f2_02[0]"),
   ("Line 13a", "topmostSubform[0].Page2[0].f2_03[0]"),
   ("Line 13b", "topmostSubform[0].Page2[0].f2_04[0]"),
   ("Line 14", "topmostSubform[0].Page2[0].f2_05[0]"),
   ("Line 15", "topmostSubform[0].Page2[0].f2_06[0]"),
   ("Line 16", "topmostSubform[0].Page2[0].f2_08[0]"),
   ("Line 17", "topmostSubform[0].Page2[0].f2_09[0]"),
   ("Line 18", "topmostSubform[0].Page2[0].f2_10[0]"),
   ("Line 19", "topmostSubform[0].Page2[0].f2_11[0]"),
   ("Line 20", "topmostSubform[0].Page2[0].f2_12[0]"),
   ("Line 21", "topmostSubform[0].Page2[0].f2_13[0]"),
   ("Line 22", "topmostSubform[0].Page2[0].f2_14[0]"),
   ("Line 23", "topmostSubform[0].Page2[0].f2_15[0]"),
   ("Line 24", "topmostSubform[0].Page2[0].f2_16[0]"),
   ("Line 25a", "topmostSubform[0].Page2[0].f2_17[0]"),
   ("Line 25b", "topmostSubform[0].Page2[0].f2_18[0]"),
   ("Line 25c", "topmostSubform[0].Page2[0].f2_19[0]"),
   ("Line 25d", "topmostSubform[0].Page2[0].f2_20[0]"),
   ("Line 26", "topmostSubform[0].Page2[0].f2_21[0]"),
   ("Line 27a", "topmostSubform[0].Page2[0].f2_23[0]"),
   ("Line 28", "topmostSubform[0].Page2[0].f2_24[0]"),
   ("Line 29", "topmostSubform[0].Page2[0].f2_25[0]"),
   ("Line 30", "topmostSubform[0].Page2[0].f2_26[0]"),
   ("Line 31", "topmostSubform[0].Page2[0].f2_27[0]"),
   ("Line 32", "topmostSubform[0].Page2[0].f2_28[0]"),
   ("Line 33", "topmostSubform[0].Page2[0].f2_29[0]"),
   ("Line 34", "topmostSubform[0].Page2[0].f2_30[0]"),
   ("Line 35a", "topmostSubform[0].Page2[0].f2_31[0]"),
   ("Line 36", "topmostSubform[0].Page2[0].f2_34[0]"),
   ("Line 37", "topmostSubform[0].Page2[0].f2_35[0]"),
   ("Line 38", "topmostSubform[0].Page2[0].f2_36[0]")]

/-- `getF1040Mapping` (src/unnamed/part_002:80-85): only 2025 exists,
with fallback to it. -/
def getF1040Mapping (year : ℕ) : List (String × String) :=
  (List.lookup year [(2025, f1040_2025)]).getD f1040_2025

/-- `F1040Parser.looksLikeHeader` (src/unnamed/part_000:65-84): if the
row's keys already include `variable`/`value`, the header was consumed
upstream (not a header row); otherwise the first cell value must be a
string containing one of `variable|field|line|item`. -/
def looksLikeHeader (r : ExcelRow) : Bool :=
  if (r.map Prod.fst).any (fun k => jsToLower k == "variable" || jsToLower k == "value") then
    false
  else
    match r.head? with
    | some (_, .str s) =>
      ["variable", "field", "line", "item"].any (fun h => jsIncludes (jsTrim (jsToLower s)) h)
    | _ => false

/-- `F1040Parser.hasColumns` (src/unnamed/part_000:86-91): bidirectional
substring containment of each expected column against the key set. -/
def hasColumns (r : ExcelRow) (expectedColumns : List String) : Bool :=
  expectedColumns.all (fun col =>
    (r.map (fun kv => jsTrim (jsToLower kv.1))).any (fun k => jsIncludes k col || jsIncludes col k))

/-- One conditional field write of the F1040 row loops: write
`fieldValues[mapping[String(variable)]] = value` when the mapped key is
truthy and the value is non-empty. -/
def writeMapped (env : JsEnv) (mapping : List (String × String)) (fieldValues : VariableMap)
    (varCell value : JsVal) : VariableMap :=
  match List.lookup (jsString env varCell) mapping with
  | some mk => if mk ≠ "" && !isEmptyVal value then (mk, value) :: fieldValues else fieldValues
  | none => fieldValues

/-- The row loop of `parseColumnFormat` (src/unnamed/part_000:123-136):
on an empty variable cell, `continue` when `skipEmptyRows`, else `break`. -/
def colScan (env : JsEnv) (variableCol valueCol : String) (mapping : List (String × String))
    (skipEmptyRows : Bool) : List ExcelRow → VariableMap → VariableMap
  | [], fieldValues => fieldValues
  | r :: rest, fieldValues =>
    let varCell := rowGet r variableCol
    if isEmptyVal varCell then
      if skipEmptyRows then colScan env variableCol valueCol mapping skipEmptyRows rest fieldValues
      else fieldValues
    else
      colScan env variableCol valueCol mapping skipEmptyRows rest
        (writeMapped env mapping fieldValues varCell (rowGet r valueCol))

/-- `F1040Parser.parseColumnFormat` (src/unnamed/part_000:93-137):
locate the variable and value columns by substring match over the first
row's headers, then run the row loop. -/
def parseColumnFormat (env : JsEnv) (rows : List ExcelRow)
    (mapping : List (String × String)) (skipEmptyRows : Bool) : VariableMap :=
  match rows.head? with
  | none => []
  | some firstRow =>
    let headers := firstRow.map Prod.fst
    let variableCol := headers.find? (fun h =>
      jsIncludes (jsToLower h) "variable" || jsIncludes (jsToLower h) "field" || jsIncludes (jsToLower h) "line")
    let valueCol := headers.find? (fun h =>
      jsIncludes (jsToLower h) "value" || jsIncludes (jsToLower h) "amount")
    match variableCol, valueCol with
    | some vc, some wc => colScan env vc wc mapping skipEmptyRows rows []
    | _, _ => []

/-- The row loop of `parseSimpleFormat` (src/unnamed/part_000:153-163):
always `break` on an empty variable cell. -/
def simpleScan (env : JsEnv) (variableCol valueCol : String)
    (mapping : List (String × String)) : List ExcelRow → VariableMap → VariableMap
  | [], fieldValues => fieldValues
  | r :: rest, fieldValues =>
    let varCell := rowGet r variableCol
    if isEmptyVal varCell then fieldValues
    else
      simpleScan env variableCol valueCol mapping rest
        (writeMapped env mapping fieldValues varCell (rowGet r valueCol))

/-- `F1040Parser.parseSimpleFormat` (src/unnamed/part_000:139-164):
positional first/second columns of the first row's header set. -/
def parseSimpleFormat (env : JsEnv) (rows : List ExcelRow)
    (mapping : List (String × String)) : VariableMap :=
  let headers := (rows.headD []).map Prod.fst
  if headers.length < 2 then []
  else simpleScan env (headers.getD 0 "") (headers.getD 1 "") mapping rows []

/-- `F1040Parser.validate` (src/unnamed/part_000:166-192). -/
def f1040validate (data : FormsData) : ValidationResult :=
  match List.lookup "f1040" data with
  | none => createValidationResult false [("f1040", "No data found for Form 1040")] []
  | some formData =>
    if formData.isEmpty then
      createValidationResult false [("f1040", "No data found for Form 1040")] []
    else
      let requiredFields := ["topmostSubform[0].Page1[0].f1_32[0]"]
      let warns := requiredFields.filterMap (fun f =>
        if isEmptyVal ((List.lookup f formData).getD .undefOrNull) then
          some (f, "Required field is empty")
        else none)
      createValidationResult true [] warns

/-- `F1040Parser.parse` (src/unnamed/part_000:22-63). -/
def f1040parse (env : JsEnv) (rows : List ExcelRow) (options : ParseOptions) : ParseResult :=
  if rows = [] then
    ⟨[], [], createValidationResult false [("sheet", "No data found in sheet")] []⟩
  else
    let mapping := getF1040Mapping options.year
    let firstRow := rows.headD []
    let hasHeader := looksLikeHeader firstRow
    let dataRows := if hasHeader then rows.drop 1 else rows
    let fieldValues :=
      if hasHeader && hasColumns firstRow ["variable", "value"] then
        parseColumnFormat env dataRows mapping options.skipEmptyRows
      else
        parseSimpleFormat env dataRows mapping
    let formsData : FormsData := [("f1040", fieldValues)]
    let validation :=
      if options.validate then f1040validate formsData
      else createValidationResult true [] []
    ⟨["f1040"], formsData, validation⟩

/-! ### The parser registry (src/src/parsers/ParserRegistry.ts) -/

/-- `F8949Parser.canParse` (src/src/parsers/F8949Parser.ts:38-40). -/
def canParseF8949 (sheetName : String) : Bool :=
  jsToLower sheetName == "f8949" || jsToLower sheetName == "8949"

/-- `F1040Parser.canParse` (src/unnamed/part_000:11-13). -/
def canParseF1040 (sheetName : String) : Bool :=
  jsToLower sheetName == "f1040" || jsToLower sheetName == "1040"

/-- `ParserRegistry.parse` (src/src/parsers/ParserRegistry.ts:34-54):
first-match linear scan over the registration order `[F8949, F1040]`;
when none matches, the fixed single-error result. -/
def registryParse (env : JsEnv) (sheetName : String) (rows : List ExcelRow)
    (options : ParseOptions) : ParseResult :=
  if canParseF8949 sheetName then f8949parse env rows options
  else if canParseF1040 sheetName then f1040parse env rows options
  else
    ⟨[], [],
     ⟨false, [⟨"sheet", "No parser found for sheet: " ++ sheetName, "error"⟩], []⟩⟩

/-- A concrete host environment used by closed witnesses and
counterexamples (none of their executions consults it). -/
def defaultEnv : JsEnv :=
  ⟨fun _ => none, fun _ => 0, fun q => toString q, fun ms => toString ms, fun ms => toString ms⟩

/-- A concrete transaction used by closed witnesses. -/
def wTx : CapitalTransaction :=
  ⟨1, "XYZ", "01/01/2024", "06/01/2024", 10, 20, "", 0, true⟩

/-- A concrete well-formed F8949 row used by closed witnesses. -/
def wHdr : ExcelRow :=
  [("quantity", .str "1"), ("name", .str "AAPL"),
   ("purchase date", .str "01/01/2024"), ("sell date", .str "06/01/2024"),
   ("purchase price", .str "10"), ("sell price", .str "20")]

/-- The same shape with an empty quantity cell (must be skipped). -/
def wEmptyQty : ExcelRow :=
  [("quantity", .str ""), ("name", .str "SKIP"),
   ("purchase date", .str "01/01/2024"), ("sell date", .str "06/01/2024"),
   ("purchase price", .str "1"), ("sell price", .str "2")]

/-- The column map `detectColumns` resolves for `wHdr`. -/
def wCm : ColumnMap :=
  ⟨"quantity", "name", "purchase date", "sell date", "purchase price", "sell price",
   none, none⟩

/-- An F8949 row with no recognizable columns. -/
def wBadRow : ExcelRow := [("X", .str "")]

/-- An F1040 record whose variable and value cells are both empty. -/
def cxEmptyVarRow : ExcelRow := [("Variable", .str ""), ("Value", .str "")]

/-- Headerless two-column F1040 rows: an unmapped first record. -/
def c5r1 : ExcelRow := [("Col1", .str "Garbage"), ("Col2", .str "0")]

/-- Headerless two-column F1040 rows: an empty-variable record. -/
def c5r2 : ExcelRow := [("Col1", .str ""), ("Col2", .str "")]

/-- Headerless two-column F1040 rows: a mapped `Line 9` record. -/
def c5r3 : ExcelRow := [("Col1", .str "Line 9"), ("Col2", .str "7")]

/-! ## Helper lemmas -/

/-- `Rat.floor` agrees with the mathematical floor. -/
lemma ratFloor_eq_intFloor (q : ℚ) : Rat.floor q = ⌊q⌋ := by
  rw [Rat.floor_def', Rat.floor_def]

/-- `excelDateToString` renders exactly `⌊serial − 25569⌋` days after the
epoch: the `*86400*1000` and `/86400000` round-trip cancels. -/
lemma excelDateToString_eq (serial : ℚ) :
    excelDateToString serial = dateStringOfDays (Rat.floor (serial - 25569)) := by
  have h : (Rat.floor (serial - 25569) * 86400 * 1000).fdiv 86400000
      = Rat.floor (serial - 25569) := by
    have h2 : Rat.floor (serial - 25569) * 86400 * 1000
        = Rat.floor (serial - 25569) * 86400000 := by ring
    rw [h2, Int.mul_fdiv_cancel _ (by norm_num)]
  simp only [excelDateToString, dateStringOfDays, h]

lemma chunkList_nil : chunkList [] = [] := by rw [chunkList]; simp

lemma chunkList_cons (l : List CapitalTransaction) (h : l ≠ []) :
    chunkList l = l.take MAX_ROWS_PER_FORM :: chunkList (l.drop MAX_ROWS_PER_FORM) := by
  rw [chunkList]
  simp [h]

/-- The stride-14 partition concatenates back to the input. -/
lemma chunkList_flatten (l : List CapitalTransaction) : (chunkList l).flatten = l := by
  induction l using chunkList.induct with
  | case1 => simp [chunkList_nil]
  | case2 l h ih =>
    rw [chunkList_cons l h]
    simp [ih]

/-- Every chunk of the stride-14 partition has at most 14 elements. -/
lemma chunkList_len_le (l : List CapitalTransaction) :
    ∀ c ∈ chunkList l, c.length ≤ MAX_ROWS_PER_FORM := by
  induction l using chunkList.induct with
  | case1 => simp [chunkList_nil]
  | case2 l h ih =>
    rw [chunkList_cons l h]
    intro c hc
    rcases List.mem_cons.1 hc with rfl | hc
    · simp
    · exact ih c hc

/-- Twenty transactions split into chunks of sizes 14 and 6. -/
lemma chunkList_twenty (l : List CapitalTransaction) (h : l.length = 20) :
    (chunkList l).map List.length = [14, 6] := by
  have h1 : l ≠ [] := by
    intro he
    rw [he] at h
    simp at h
  rw [chunkList_cons l h1]
  have h2 : l.drop MAX_ROWS_PER_FORM ≠ [] := by
    intro he
    have := congrArg List.length he
    simp [MAX_ROWS_PER_FORM, h] at this
  rw [chunkList_cons _ h2]
  have h3 : (l.drop MAX_ROWS_PER_FORM).drop MAX_ROWS_PER_FORM = [] := by
    rw [List.drop_drop]
    apply List.drop_eq_nil_of_le
    simp [MAX_ROWS_PER_FORM, h]
  rw [h3, chunkList_nil]
  have h4 : ((l.drop MAX_ROWS_PER_FORM).take MAX_ROWS_PER_FORM).length = 6 := by
    simp [MAX_ROWS_PER_FORM, h]
  simp [MAX_ROWS_PER_FORM, h, h4]

/-- The four running totals of the `forEach` loop are exactly the sums of
`sellPrice`, `purchasePrice`, `sellPrice − purchasePrice − adjustment`,
and `adjustment` over the processed transactions. -/
lemma chunkLoop_totals (env : JsEnv) (mapping : List (String × String)) (pfx : String) :
    ∀ (chunk : List CapitalTransaction) (idx : ℕ) (fd : VariableMap) (tp tc tg ta : ℚ),
      (chunkLoop env mapping pfx idx chunk (fd, tp, tc, tg, ta)).2
        = (tp + (chunk.map (fun t => t.sellPrice)).sum,
           tc + (chunk.map (fun t => t.purchasePrice)).sum,
           tg + (chunk.map (fun t => t.sellPrice - t.purchasePrice - t.adjustment)).sum,
           ta + (chunk.map (fun t => t.adjustment)).sum) := by
  intro chunk
  induction chunk with
  | nil => intro idx fd tp tc tg ta; simp [chunkLoop]
  | cons t rest ih =>
    intro idx fd tp tc tg ta
    simp only [chunkLoop]
    rw [ih]
    simp only [List.map_cons, List.sum_cons, Prod.mk.injEq]
    refine ⟨by ring, by ring, by ring, by ring⟩

/-- Two prefixes of the same list with equal lengths are equal. -/
lemma startsL_prefix_eq : ∀ (l p q : List Char),
    startsL l p = true → startsL l q = true → p.length = q.length → p = q := by
  intro l
  induction l with
  | nil =>
    intro p q hp hq _
    cases p with
    | nil =>
      cases q with
      | nil => rfl
      | cons d ds => simp [startsL] at hq
    | cons c cs => simp [startsL] at hp
  | cons a l ih =>
    intro p q hp hq hlen
    cases p with
    | nil =>
      cases q with
      | nil => rfl
      | cons d ds => simp at hlen
    | cons c cs =>
      cases q with
      | nil => simp at hlen
      | cons d ds =>
        simp only [startsL, Bool.and_eq_true, beq_iff_eq] at hp hq
        simp only [List.length_cons, Nat.add_right_cancel_iff] at hlen
        rw [ih cs ds hp.2 hq.2 hlen, ← hp.1, hq.1]

/-- A successful association-list lookup exhibits a member. -/
lemma lookup_mem : ∀ (l : VariableMap) (k : String) (v : JsVal),
    List.lookup k l = some v → (k, v) ∈ l := by
  intro l
  induction l with
  | nil => intro k v h; simp [List.lookup] at h
  | cons kv rest ih =>
    intro k v h
    obtain ⟨a, b⟩ := kv
    rw [List.lookup] at h
    by_cases hk : k == a
    · simp [hk] at h
      have : k = a := eq_of_beq hk
      subst this
      subst h
      exact List.mem_cons_self _ _
    · simp [hk] at h
      exact List.mem_cons_of_mem _ (ih k v h)

/-- Lookup in an appended association list prefers the left part. -/
lemma lookup_append (k : String) (a b : VariableMap) :
    List.lookup k (a ++ b)
      = ((List.lookup k a).rec (List.lookup k b) (fun v => some v)) := by
  induction a with
  | nil => simp [List.lookup]
  | cons kv rest ih =>
    obtain ⟨x, y⟩ := kv
    by_cases hk : k == x <;> simp [List.lookup, hk, ih]

/-- On key-disjoint association lists, lookup is append-order independent. -/
lemma lookup_append_comm (a b : VariableMap)
    (hdisj : ∀ k v w, (k, v) ∈ a → (k, w) ∈ b → False) (k : String) :
    List.lookup k (a ++ b) = List.lookup k (b ++ a) := by
  rw [lookup_append, lookup_append]
  cases ha : List.lookup k a with
  | none =>
    cases hb : List.lookup k b with
    | none => simp
    | some w => simp
  | some v =>
    cases hb : List.lookup k b with
    | none => simp
    | some w => exact absurd (hdisj k v w (lookup_mem a k v ha) (lookup_mem b k w hb)) not_false

/-- All keys the row loop writes keep the prefix invariant, provided the
mapped row-cell identifiers for indices below 14 carry it. -/
lemma chunkLoop_keys (env : JsEnv) (mapping : List (String × String)) (pfx : String)
    (pre : List Char)
    (hrows : ∀ i < 14, ∀ suf ∈ rowSufs,
      startsL (mapGet mapping (pfx ++ "_r" ++ toString i ++ suf)).toList pre = true) :
    ∀ (chunk : List CapitalTransaction) (idx : ℕ) (fd : VariableMap) (tp tc tg ta : ℚ),
      idx + chunk.length ≤ 14 →
      (∀ kv ∈ fd, startsL kv.1.toList pre = true) →
      ∀ kv ∈ (chunkLoop env mapping pfx idx chunk (fd, tp, tc, tg, ta)).1,
        startsL kv.1.toList pre = true := by
  intro chunk
  induction chunk with
  | nil =>
    intro idx fd tp tc tg ta _ hfd
    simpa [chunkLoop] using hfd
  | cons t rest ih =>
    intro idx fd tp tc tg ta hle hfd
    have hidx : idx < 14 := by
      simp only [List.length_cons] at hle
      omega
    have hall : ∀ suf ∈ rowSufs,
        startsL (mapGet mapping (pfx ++ "_r" ++ toString idx ++ suf)).toList pre = true :=
      hrows idx hidx
    simp only [chunkLoop]
    apply ih (idx + 1) _ _ _ _ _ (by simp only [List.length_cons] at hle; omega)
    intro kv hkv
    by_cases hcode : t.code = ""
    · simp only [hcode, ne_eq, not_true_eq_false, if_false, List.mem_cons] at hkv
      rcases hkv with rfl | rfl | rfl | rfl | rfl | rfl | rfl | hkv
      · exact hall "_c7" (by simp [rowSufs])
      · exact hall "_c6" (by simp [rowSufs])
      · exact hall "_c4" (by simp [rowSufs])
      · exact hall "_c3" (by simp [rowSufs])
      · exact hall "_c2" (by simp [rowSufs])
      · exact hall "_c1" (by simp [rowSufs])
      · exact hall "_c0" (by simp [rowSufs])
      · exact hfd kv hkv
    · simp only [hcode, ne_eq, not_false_eq_true, if_true, List.mem_cons] at hkv
      rcases hkv with rfl | rfl | rfl | rfl | rfl | rfl | rfl | rfl | hkv
      · exact hall "_c7" (by simp [rowSufs])
      · exact hall "_c6" (by simp [rowSufs])
      · exact hall "_c5" (by simp [rowSufs])
      · exact hall "_c4" (by simp [rowSufs])
      · exact hall "_c3" (by simp [rowSufs])
      · exact hall "_c2" (by simp [rowSufs])
      · exact hall "_c1" (by simp [rowSufs])
      · exact hall "_c0" (by simp [rowSufs])
      · exact hfd kv hkv

/-- All keys of a chunk's field map carry the classification's physical
prefix, for chunks within capacity. -/
lemma chunkFormData_keys (env : JsEnv) (mapping : List (String × String)) (pfx : String)
    (pre : List Char)
    (hrows : ∀ i < 14, ∀ suf ∈ rowSufs,
      startsL (mapGet mapping (pfx ++ "_r" ++ toString i ++ suf)).toList pre = true)
    (htot : ∀ suf ∈ totSufs, startsL (mapGet mapping (pfx ++ suf)).toList pre = true)
    (chunk : List CapitalTransaction) (hlen : chunk.length ≤ 14) :
    ∀ kv ∈ chunkFormData env mapping pfx chunk, startsL kv.1.toList pre = true := by
  intro kv hkv
  simp only [chunkFormData, List.mem_cons] at hkv
  rcases hkv with rfl | rfl | rfl | rfl | hkv
  · exact htot "_total_adj" (by simp [totSufs])
  · exact htot "_total_gl" (by simp [totSufs])
  · exact htot "_total_cost" (by simp [totSufs])
  · exact htot "_total_proceed" (by simp [totSufs])
  · exact chunkLoop_keys env mapping pfx pre hrows chunk 0 [] 0 0 0 0
      (by omega) (by simp) kv hkv

/-- Every short-term row-cell key of the generated mapping is a
`Page1`-prefixed physical identifier (checked by evaluation). -/
lemma stRowKeysOk : ((List.range 14).all (fun i => rowSufs.all (fun suf =>
    startsL (mapGet generateF8949Mapping ("st" ++ "_r" ++ toString i ++ suf)).toList
      stPreL))) = true := by decide

/-- Every long-term row-cell key of the generated mapping is a
`Page2`-prefixed physical identifier (checked by evaluation). -/
lemma ltRowKeysOk : ((List.range 14).all (fun i => rowSufs.all (fun suf =>
    startsL (mapGet generateF8949Mapping ("lt" ++ "_r" ++ toString i ++ suf)).toList
      ltPreL))) = true := by decide

/-- The four short-term totals keys are `Page1`-prefixed. -/
lemma stTotKeysOk : (totSufs.all (fun suf =>
    startsL (mapGet generateF8949Mapping ("st" ++ suf)).toList stPreL)) = true := by decide

/-- The four long-term totals keys are `Page2`-prefixed. -/
lemma ltTotKeysOk : (totSufs.all (fun suf =>
    startsL (mapGet generateF8949Mapping ("lt" ++ suf)).toList ltPreL)) = true := by decide

/-- Every key of every short-term chunk map is `Page1`-prefixed. -/
lemma chunkTx_keys_st (env : JsEnv) (ts : List CapitalTransaction) :
    ∀ fm ∈ chunkTransactions env ts "st" generateF8949Mapping,
      ∀ kv ∈ fm, startsL kv.1.toList stPreL = true := by
  intro fm hfm
  simp only [chunkTransactions, List.mem_map] at hfm
  obtain ⟨c, hc, rfl⟩ := hfm
  exact chunkFormData_keys env generateF8949Mapping "st" stPreL
    (fun i hi suf hs => by
      have := List.all_eq_true.1 stRowKeysOk i (List.mem_range.2 hi)
      exact List.all_eq_true.1 this suf hs)
    (fun suf hs => List.all_eq_true.1 stTotKeysOk suf hs)
    c (by simpa [MAX_ROWS_PER_FORM] using chunkList_len_le ts c hc)

/-- Every key of every long-term chunk map is `Page2`-prefixed. -/
lemma chunkTx_keys_lt (env : JsEnv) (ts : List CapitalTransaction) :
    ∀ fm ∈ chunkTransactions env ts "lt" generateF8949Mapping,
      ∀ kv ∈ fm, startsL kv.1.toList ltPreL = true := by
  intro fm hfm
  simp only [chunkTransactions, List.mem_map] at hfm
  obtain ⟨c, hc, rfl⟩ := hfm
  exact chunkFormData_keys env generateF8949Mapping "lt" ltPreL
    (fun i hi suf hs => by
      have := List.all_eq_true.1 ltRowKeysOk i (List.mem_range.2 hi)
      exact List.all_eq_true.1 this suf hs)
    (fun suf hs => List.all_eq_true.1 ltTotKeysOk suf hs)
    c (by simpa [MAX_ROWS_PER_FORM] using chunkList_len_le ts c hc)

/-- A mapped key whose `mapGet` value carries a prefix that `"undefined"`
does not carry must come from a successful lookup. -/
lemma lookup_isSome_of_startsL (m : List (String × String)) (k : String) (pre : List Char)
    (hu : startsL ("undefined".toList) pre = false)
    (h : startsL (mapGet m k).toList pre = true) :
    (List.lookup k m).isSome = true := by
  cases hl : List.lookup k m with
  | some v => simp
  | none =>
    rw [mapGet, hl] at h
    simp only [Option.getD_none] at h
    rw [hu] at h
    simp at h

/-- The transaction row loop is skip-empty-quantity filtering followed by
row-wise normalization, preserving input order. -/
lemma parseTransactionRows_eq (env : JsEnv) (cm : ColumnMap) :
    ∀ rows : List ExcelRow, parseTransactionRows env cm rows
      = (rows.filter (fun r => !isEmptyVal (rowGet r cm.quantity))).map
          (mkTransaction env cm) := by
  intro rows
  induction rows with
  | nil => simp [parseTransactionRows]
  | cons r rest ih =>
    by_cases he : isEmptyVal (rowGet r cm.quantity)
    · simp [parseTransactionRows, he, List.filter_cons, ih]
    · simp [parseTransactionRows, he, List.filter_cons, ih]

/-! ## Claims -/

/-- C1: the transaction's `isShortTerm` flag is true iff
`sellDate − purchaseDate < 365×24×3600×1000` milliseconds; a 364-day
holding period is short-term, a 367-day one long-term, with no
calendar-year adjustment. -/
theorem claim_C1 :
    (∀ (env : JsEnv) (cm : ColumnMap) (r : ExcelRow),
        (mkTransaction env cm r).isShortTerm
          = decide (parseDateMs env (rowGet r cm.sellDate)
              - parseDateMs env (rowGet r cm.purchaseDate) < 365 * 24 * 3600 * 1000)) ∧
    (∀ purchaseMs sellMs : ℤ,
        isShortTermGain purchaseMs sellMs = true
          ↔ sellMs - purchaseMs < 365 * 24 * 3600 * 1000) ∧
    (∀ p : ℤ, isShortTermGain p (p + 364 * 86400000) = true) ∧
    (∀ p : ℤ, isShortTermGain p (p + 367 * 86400000) = false) := by
  refine ⟨fun env cm r => ?_, fun p s => ?_, fun p => ?_, fun p => ?_⟩
  · simp only [mkTransaction, isShortTermGain, ONE_YEAR_MS]
    norm_num
  · simp only [isShortTermGain, ONE_YEAR_MS, decide_eq_true_eq]
    norm_num
  · simp only [isShortTermGain, ONE_YEAR_MS, decide_eq_true_eq]
    omega
  · simp only [isShortTermGain, ONE_YEAR_MS]
    simp only [decide_eq_false_iff_not, not_lt]
    omega

/-- C6: a sheet name matched by no registered parser yields
`formIds = []` and exactly one error with field `"sheet"` whose message
names the sheet (and the dispatcher throws nothing — the embedding is
total); matching is case-insensitive exact matching against the alias
set, so `"F8949"` resolves to the 8949 pipeline. -/
theorem claim_C6 (env : JsEnv) (sheetName : String) (rows : List ExcelRow)
    (options : ParseOptions)
    (h : canParseF8949 sheetName = false ∧ canParseF1040 sheetName = false) :
    (registryParse env sheetName rows options
       = ⟨[], [], ⟨false, [⟨"sheet", "No parser found for sheet: " ++ sheetName, "error"⟩], []⟩⟩) ∧
    (∀ s : String, canParseF8949 s = true ↔ (jsToLower s = "f8949" ∨ jsToLower s = "8949")) ∧
    registryParse env "F8949" rows options = f8949parse env rows options := by
  refine ⟨?_, fun s => ?_, ?_⟩
  · simp [registryParse, h.1, h.2]
  · simp [canParseF8949]
  · have hc : canParseF8949 "F8949" = true := by decide
    simp [registryParse, hc]

/-- Witness for C6 at the concrete unmatched sheet name `"unknown_sheet"`. -/
theorem claim_C6_witness :
    registryParse defaultEnv "unknown_sheet" [] ⟨2025, true, true⟩
      = ⟨[], [],
         ⟨false, [⟨"sheet", "No parser found for sheet: " ++ "unknown_sheet", "error"⟩], []⟩⟩ :=
  (claim_C6 defaultEnv "unknown_sheet" [] ⟨2025, true, true⟩ ⟨by decide, by decide⟩).1

/-- C8: Excel-serial date conversion is a pure function of the serial:
it renders exactly `⌊serial − 25569⌋` whole days after the Unix epoch at
UTC midnight as `MM/DD/YYYY`, and serial 45658 always converts to the
fixed string `"01/01/2025"`. -/
theorem claim_C8 :
    (∀ serial : ℚ, excelDateToString serial = dateStringOfDays (Rat.floor (serial - 25569))) ∧
    (∀ s₁ s₂ : ℚ, s₁ = s₂ → excelDateToString s₁ = excelDateToString s₂) ∧
    excelDateToString 45658 = "01/01/2025" := by
  refine ⟨fun serial => excelDateToString_eq serial, fun s₁ s₂ hs => by rw [hs], ?_⟩
  rw [excelDateToString_eq]
  have h45 : Rat.floor ((45658 : ℚ) - 25569) = 20089 := by
    rw [ratFloor_eq_intFloor]
    norm_num
  rw [h45]
  decide

/-- C9: running either parser (or the registry dispatcher) with
`validate = true` versus `validate = false` on the same rows yields
identical `formIds` and identical `formsData`; validation only determines
the `validation` component. -/
theorem claim_C9 (env : JsEnv) (rows : List ExcelRow) (year : ℕ) (sk : Bool) :
    ((f8949parse env rows ⟨year, true, sk⟩).formIds
        = (f8949parse env rows ⟨year, false, sk⟩).formIds
      ∧ (f8949parse env rows ⟨year, true, sk⟩).formsData
        = (f8949parse env rows ⟨year, false, sk⟩).formsData)
    ∧ ((f1040parse env rows ⟨year, true, sk⟩).formIds
        = (f1040parse env rows ⟨year, false, sk⟩).formIds
      ∧ (f1040parse env rows ⟨year, true, sk⟩).formsData
        = (f1040parse env rows ⟨year, false, sk⟩).formsData)
    ∧ (∀ sheetName : String,
        (registryParse env sheetName rows ⟨year, true, sk⟩).formIds
          = (registryParse env sheetName rows ⟨year, false, sk⟩).formIds
      ∧ (registryParse env sheetName rows ⟨year, true, sk⟩).formsData
          = (registryParse env sheetName rows ⟨year, false, sk⟩).formsData) := by
  have h8 : (f8949parse env rows ⟨year, true, sk⟩).formIds
        = (f8949parse env rows ⟨year, false, sk⟩).formIds
      ∧ (f8949parse env rows ⟨year, true, sk⟩).formsData
        = (f8949parse env rows ⟨year, false, sk⟩).formsData := by
    by_cases h : rows = []
    · simp [f8949parse, h]
    · by_cases h2 : parseTransactions env rows = [] <;> simp [f8949parse, h, h2]
  have h1 : (f1040parse env rows ⟨year, true, sk⟩).formIds
        = (f1040parse env rows ⟨year, false, sk⟩).formIds
      ∧ (f1040parse env rows ⟨year, true, sk⟩).formsData
        = (f1040parse env rows ⟨year, false, sk⟩).formsData := by
    by_cases h : rows = [] <;> simp [f1040parse, h]
  refine ⟨h8, h1, fun sheetName => ?_⟩
  by_cases hc8 : canParseF8949 sheetName = true
  · simpa [registryParse, hc8] using h8
  · by_cases hc1 : canParseF1040 sheetName = true
    · simpa [registryParse, hc8, hc1] using h1
    · simp [registryParse, hc8, hc1]

/-- C2: `chunkTransactions` partitions a single-classification sequence
into contiguous chunks of at most 14 in original order (20 transactions
give chunks of sizes 14 and 6), and each chunk's four mapped totals
fields are exactly the sums of `sellPrice`, `purchasePrice`,
`sellPrice − purchasePrice − adjustment`, and `adjustment` over that
chunk's transactions. -/
theorem claim_C2 (env : JsEnv) (ts : List CapitalTransaction) (pfx : String)
    (hpfx : pfx = "st" ∨ pfx = "lt") :
    ((chunkList ts).flatten = ts)
  ∧ (∀ c ∈ chunkList ts, c.length ≤ 14)
  ∧ (ts.length = 20 → (chunkList ts).map List.length = [14, 6])
  ∧ (chunkTransactions env ts pfx generateF8949Mapping
      = (chunkList ts).map (chunkFormData env generateF8949Mapping pfx))
  ∧ (∀ c : List CapitalTransaction,
      List.lookup (mapGet generateF8949Mapping (pfx ++ "_total_proceed"))
          (chunkFormData env generateF8949Mapping pfx c)
        = some (.num ((c.map (fun t => t.sellPrice)).sum))
    ∧ List.lookup (mapGet generateF8949Mapping (pfx ++ "_total_cost"))
          (chunkFormData env generateF8949Mapping pfx c)
        = some (.num ((c.map (fun t => t.purchasePrice)).sum))
    ∧ List.lookup (mapGet generateF8949Mapping (pfx ++ "_total_gl"))
          (chunkFormData env generateF8949Mapping pfx c)
        = some (.num ((c.map (fun t => t.sellPrice - t.purchasePrice - t.adjustment)).sum))
    ∧ List.lookup (mapGet generateF8949Mapping (pfx ++ "_total_adj"))
          (chunkFormData env generateF8949Mapping pfx c)
        = some (.num ((c.map (fun t => t.adjustment)).sum))) := by
  refine ⟨chunkList_flatten ts,
    fun c hc => by simpa [MAX_ROWS_PER_FORM] using chunkList_len_le ts c hc,
    chunkList_twenty ts, rfl, fun c => ?_⟩
  rcases hpfx with rfl | rfl
  · have e1 : (mapGet generateF8949Mapping ("st" ++ "_total_proceed")
        == mapGet generateF8949Mapping ("st" ++ "_total_adj")) = false := by decide
    have e2 : (mapGet generateF8949Mapping ("st" ++ "_total_proceed")
        == mapGet generateF8949Mapping ("st" ++ "_total_gl")) = false := by decide
    have e3 : (mapGet generateF8949Mapping ("st" ++ "_total_proceed")
        == mapGet generateF8949Mapping ("st" ++ "_total_cost")) = false := by decide
    have e4 : (mapGet generateF8949Mapping ("st" ++ "_total_cost")
        == mapGet generateF8949Mapping ("st" ++ "_total_adj")) = false := by decide
    have e5 : (mapGet generateF8949Mapping ("st" ++ "_total_cost")
        == mapGet generateF8949Mapping ("st" ++ "_total_gl")) = false := by decide
    have e6 : (mapGet generateF8949Mapping ("st" ++ "_total_gl")
        == mapGet generateF8949Mapping ("st" ++ "_total_adj")) = false := by decide
    refine ⟨?_, ?_, ?_, ?_⟩ <;>
      · simp only [chunkFormData, List.lookup, e1, e2, e3, e4, e5, e6, beq_self_eq_true]
        rw [chunkLoop_totals]
        simp
  · have e1 : (mapGet generateF8949Mapping ("lt" ++ "_total_proceed")
        == mapGet generateF8949Mapping ("lt" ++ "_total_adj")) = false := by decide
    have e2 : (mapGet generateF8949Mapping ("lt" ++ "_total_proceed")
        == mapGet generateF8949Mapping ("lt" ++ "_total_gl")) = false := by decide
    have e3 : (mapGet generateF8949Mapping ("lt" ++ "_total_proceed")
        == mapGet generateF8949Mapping ("lt" ++ "_total_cost")) = false := by decide
    have e4 : (mapGet generateF8949Mapping ("lt" ++ "_total_cost")
        == mapGet generateF8949Mapping ("lt" ++ "_total_adj")) = false := by decide
    have e5 : (mapGet generateF8949Mapping ("lt" ++ "_total_cost")
        == mapGet generateF8949Mapping ("lt" ++ "_total_gl")) = false := by decide
    have e6 : (mapGet generateF8949Mapping ("lt" ++ "_total_gl")
        == mapGet generateF8949Mapping ("lt" ++ "_total_adj")) = false := by decide
    refine ⟨?_, ?_, ?_, ?_⟩ <;>
      · simp only [chunkFormData, List.lookup, e1, e2, e3, e4, e5, e6, beq_self_eq_true]
        rw [chunkLoop_totals]
        simp

/-- Witness for C2: the short-term proceeds total of a concrete
one-transaction chunk. -/
theorem claim_C2_witness :
    List.lookup (mapGet generateF8949Mapping ("st" ++ "_total_proceed"))
        (chunkFormData defaultEnv generateF8949Mapping "st" [wTx])
      = some (.num (([wTx].map (fun t => t.sellPrice)).sum)) :=
  ((claim_C2 defaultEnv [wTx] "st" (Or.inl rfl)).2.2.2.2 [wTx]).1

/-- C3: for short-term and long-term chunk sequences of lengths m and n,
`combineForms` produces exactly `max m n` instances keyed
`f8949_1 .. f8949_max`, instance i being the union of short[i−1] and
long[i−1]; the mapped `st_`/`lt_` physical identifiers live on Page1 and
Page2 respectively and never collide, so the union's lookups are
independent of merge order. -/
theorem claim_C3 (env : JsEnv) (tsS tsL : List CapitalTransaction) :
    ((combineForms (chunkTransactions env tsS "st" generateF8949Mapping)
        (chunkTransactions env tsL "lt" generateF8949Mapping)).length
      = max (chunkTransactions env tsS "st" generateF8949Mapping).length
            (chunkTransactions env tsL "lt" generateF8949Mapping).length)
  ∧ (∀ i, i < max (chunkTransactions env tsS "st" generateF8949Mapping).length
            (chunkTransactions env tsL "lt" generateF8949Mapping).length →
      (combineForms (chunkTransactions env tsS "st" generateF8949Mapping)
          (chunkTransactions env tsL "lt" generateF8949Mapping)).getD i ("", [])
        = ("f8949_" ++ toString (i + 1),
           mergeMaps ((chunkTransactions env tsS "st" generateF8949Mapping).getD i [])
             ((chunkTransactions env tsL "lt" generateF8949Mapping).getD i [])))
  ∧ (∀ i k,
      List.lookup k
          (mergeMaps ((chunkTransactions env tsS "st" generateF8949Mapping).getD i [])
            ((chunkTransactions env tsL "lt" generateF8949Mapping).getD i []))
        = List.lookup k
            (mergeMaps ((chunkTransactions env tsL "lt" generateF8949Mapping).getD i [])
              ((chunkTransactions env tsS "st" generateF8949Mapping).getD i []))) := by
  refine ⟨by simp [combineForms], fun i hi => by
    simp [combineForms, List.getD_eq_getElem?_getD, List.getElem?_map, List.getElem?_range, hi],
    fun i k => ?_⟩
  have hstK : ∀ kv ∈ (chunkTransactions env tsS "st" generateF8949Mapping).getD i [],
      startsL kv.1.toList stPreL = true := by
    by_cases hl : i < (chunkTransactions env tsS "st" generateF8949Mapping).length
    · intro kv hkv
      refine chunkTx_keys_st env tsS _ ?_ kv hkv
      rw [List.getD_eq_getElem _ [] hl] at hkv ⊢
      exact List.getElem_mem hl
    · rw [List.getD_eq_default _ _ (by omega)]
      simp
  have hltK : ∀ kv ∈ (chunkTransactions env tsL "lt" generateF8949Mapping).getD i [],
      startsL kv.1.toList ltPreL = true := by
    by_cases hl : i < (chunkTransactions env tsL "lt" generateF8949Mapping).length
    · intro kv hkv
      refine chunkTx_keys_lt env tsL _ ?_ kv hkv
      rw [List.getD_eq_getElem _ [] hl] at hkv ⊢
      exact List.getElem_mem hl
    · rw [List.getD_eq_default _ _ (by omega)]
      simp
  apply lookup_append_comm
  intro k' v w hv hw
  have h1 := hltK (k', v) hv
  have h2 := hstK (k', w) hw
  have heq : stPreL = ltPreL :=
    startsL_prefix_eq k'.toList stPreL ltPreL h2 h1 (by decide)
  exact absurd heq (by decide)

/-- Witness for C3: combining one concrete short-term chunk with no
long-term chunks yields instance `f8949_1` as the merge of the two. -/
theorem claim_C3_witness :
    (combineForms (chunkTransactions defaultEnv [wTx] "st" generateF8949Mapping)
        (chunkTransactions defaultEnv [] "lt" generateF8949Mapping)).getD 0 ("", [])
      = ("f8949_" ++ toString (0 + 1),
         mergeMaps ((chunkTransactions defaultEnv [wTx] "st" generateF8949Mapping).getD 0 [])
           ((chunkTransactions defaultEnv [] "lt" generateF8949Mapping).getD 0 [])) :=
  (claim_C3 defaultEnv [wTx] []).2.1 0 (by
    simp only [chunkTransactions, List.length_map]
    rw [chunkList_cons _ (by simp)]
    simp only [List.length_cons]
    omega)

/-- C10: the generated year-2025 F8949 mapping has an entry for every
logical cell key `chunkTransactions` can emit — `st_`/`lt_`-prefixed
`r{i}_c{j}` for i < 14, j < 8 plus the four totals keys — so the
unguarded lookup never misses and no chunk field map contains the string
key `"undefined"`. -/
theorem claim_C10 :
    (∀ pfx ∈ (["st", "lt"] : List String),
      (∀ i < 14, ∀ suf ∈ rowSufs,
        (List.lookup (pfx ++ "_r" ++ toString i ++ suf) generateF8949Mapping).isSome = true)
      ∧ (∀ suf ∈ totSufs,
        (List.lookup (pfx ++ suf) generateF8949Mapping).isSome = true))
  ∧ (∀ (env : JsEnv) (ts : List CapitalTransaction) (pfx : String),
      pfx = "st" ∨ pfx = "lt" →
      ∀ fm ∈ chunkTransactions env ts pfx generateF8949Mapping,
        ∀ kv ∈ fm, kv.1 ≠ "undefined") := by
  constructor
  · intro pfx hpfx
    rcases (by simpa using hpfx : pfx = "st" ∨ pfx = "lt") with rfl | rfl
    · refine ⟨fun i hi suf hs => ?_, fun suf hs => ?_⟩
      · refine lookup_isSome_of_startsL _ _ stPreL (by decide) ?_
        have := List.all_eq_true.1 stRowKeysOk i (List.mem_range.2 hi)
        exact List.all_eq_true.1 this suf hs
      · exact lookup_isSome_of_startsL _ _ stPreL (by decide)
          (List.all_eq_true.1 stTotKeysOk suf hs)
    · refine ⟨fun i hi suf hs => ?_, fun suf hs => ?_⟩
      · refine lookup_isSome_of_startsL _ _ ltPreL (by decide) ?_
        have := List.all_eq_true.1 ltRowKeysOk i (List.mem_range.2 hi)
        exact List.all_eq_true.1 this suf hs
      · exact lookup_isSome_of_startsL _ _ ltPreL (by decide)
          (List.all_eq_true.1 ltTotKeysOk suf hs)
  · intro env ts pfx hpfx fm hfm kv hkv hund
    rcases hpfx with rfl | rfl
    · have h1 := chunkTx_keys_st env ts fm hfm kv hkv
      rw [hund] at h1
      exact absurd h1 (by decide)
    · have h1 := chunkTx_keys_lt env ts fm hfm kv hkv
      rw [hund] at h1
      exact absurd h1 (by decide)

/-- Witness for C10 at concrete keys and a concrete chunk entry. -/
theorem claim_C10_witness :
    ((List.lookup ("st" ++ "_r" ++ toString 0 ++ "_c0") generateF8949Mapping).isSome = true)
  ∧ ((List.lookup ("lt" ++ "_total_gl") generateF8949Mapping).isSome = true)
  ∧ (mapGet generateF8949Mapping ("st" ++ "_total_adj"),
      JsVal.num ((chunkLoop defaultEnv generateF8949Mapping "st" 0 [wTx]
        ([], 0, 0, 0, 0)).2.2.2.2)).1 ≠ "undefined" :=
  ⟨(claim_C10.1 "st" (by simp)).1 0 (by omega) "_c0" (by simp [rowSufs]),
   (claim_C10.1 "lt" (by simp)).2 "_total_gl" (by simp [totSufs]),
   claim_C10.2 defaultEnv [wTx] "st" (Or.inl rfl)
     (chunkFormData defaultEnv generateF8949Mapping "st" [wTx])
     (by
       simp only [chunkTransactions]
       apply List.mem_map_of_mem
       rw [chunkList_cons _ (by simp)]
       simp [MAX_ROWS_PER_FORM])
     _ (by simp only [chunkFormData]; exact List.mem_cons_self _ _)⟩

/-- C7: when column detection succeeds, transaction parsing is exactly
filtering out rows whose quantity cell is empty (null/undefined/""),
normalizing the rest, preserving input record order. -/
theorem claim_C7 (env : JsEnv) (rows : List ExcelRow) (cm : ColumnMap)
    (h : detectColumns (rows.headD []) = some cm) :
    parseTransactions env rows
      = (rows.filter (fun r => !isEmptyVal (rowGet r cm.quantity))).map
          (mkTransaction env cm) := by
  simp only [parseTransactions, h]
  exact parseTransactionRows_eq env cm rows

/-- Witness for C7 at a concrete two-row sheet whose second row has an
empty quantity cell. -/
theorem claim_C7_witness :
    parseTransactions defaultEnv [wHdr, wEmptyQty]
      = ([wHdr, wEmptyQty].filter (fun r => !isEmptyVal (rowGet r wCm.quantity))).map
          (mkTransaction defaultEnv wCm) :=
  claim_C7 defaultEnv [wHdr, wEmptyQty] wCm (by decide)

/-- C4 (amended): the 8949 pipeline returns zero formIds with a
descriptive error whenever it yields zero transactions (including zero
rows); the 1040 pipeline does so only for zero rows — see the
counterexample for its non-empty-rows behavior. -/
theorem claim_C4 (env : JsEnv) (rows : List ExcelRow) (options : ParseOptions)
    (h : parseTransactions env rows = []) :
    ((f8949parse env rows options).formIds = []
      ∧ (f8949parse env rows options).validation.isValid = false
      ∧ (f8949parse env rows options).validation.errors ≠ [])
  ∧ ((f1040parse env [] options).formIds = []
      ∧ (f1040parse env [] options).validation.isValid = false
      ∧ (f1040parse env [] options).validation.errors ≠ []) := by
  constructor
  · by_cases hr : rows = []
    · simp [f8949parse, hr, createValidationResult]
    · simp [f8949parse, hr, h, createValidationResult]
  · simp [f1040parse, createValidationResult]

/-- Witness for C4 at a concrete undetectable sheet. -/
theorem claim_C4_witness :
    ((f8949parse defaultEnv [wBadRow] ⟨2025, false, true⟩).formIds = []
      ∧ (f8949parse defaultEnv [wBadRow] ⟨2025, false, true⟩).validation.isValid = false
      ∧ (f8949parse defaultEnv [wBadRow] ⟨2025, false, true⟩).validation.errors ≠ [])
  ∧ ((f1040parse defaultEnv [] ⟨2025, false, true⟩).formIds = []
      ∧ (f1040parse defaultEnv [] ⟨2025, false, true⟩).validation.isValid = false
      ∧ (f1040parse defaultEnv [] ⟨2025, false, true⟩).validation.errors ≠ []) :=
  claim_C4 defaultEnv [wBadRow] ⟨2025, false, true⟩ (by decide)

/-- Counterexample for C4 as stated: the matched 1040 pipeline on one
record with empty variable and value cells extracts zero fields yet
returns the non-empty formIds list `["f1040"]`, and with
`validate = false` the result is valid with no errors. -/
theorem claim_C4_cx :
    (f1040parse defaultEnv [cxEmptyVarRow] ⟨2025, false, true⟩).formIds = ["f1040"]
  ∧ (f1040parse defaultEnv [cxEmptyVarRow] ⟨2025, false, true⟩).validation.isValid = true
  ∧ (f1040parse defaultEnv [cxEmptyVarRow] ⟨2025, false, true⟩).validation.errors = []
  ∧ (f1040parse defaultEnv [cxEmptyVarRow] ⟨2025, false, true⟩).formsData = [("f1040", [])]
  ∧ isEmptyVal (rowGet cxEmptyVarRow "Variable") = true := by
  refine ⟨?_, ?_, ?_, ?_, ?_⟩ <;> decide

/-- C5 (amended): in the labeled variable/value branch an empty variable
cell terminates scanning when `skipEmptyRows` is false and is skipped
individually when it is true; in the headerless two-column fallback
branch an empty variable cell always terminates scanning — the flag is
not consulted there. -/
theorem claim_C5 (env : JsEnv) (variableCol valueCol : String)
    (mapping : List (String × String)) (r : ExcelRow) (rest : List ExcelRow)
    (fieldValues : VariableMap) (h : isEmptyVal (rowGet r variableCol) = true) :
    (colScan env variableCol valueCol mapping false (r :: rest) fieldValues = fieldValues)
  ∧ (colScan env variableCol valueCol mapping true (r :: rest) fieldValues
      = colScan env variableCol valueCol mapping true rest fieldValues)
  ∧ (simpleScan env variableCol valueCol mapping (r :: rest) fieldValues = fieldValues) := by
  refine ⟨?_, ?_, ?_⟩ <;> simp [colScan, simpleScan, h]

/-- Witness for C5 at a concrete empty-variable record. -/
theorem claim_C5_witness :
    (colScan defaultEnv "Col1" "Col2" f1040_2025 false (c5r2 :: [c5r3]) [] = [])
  ∧ (colScan defaultEnv "Col1" "Col2" f1040_2025 true (c5r2 :: [c5r3]) []
      = colScan defaultEnv "Col1" "Col2" f1040_2025 true [c5r3] [])
  ∧ (simpleScan defaultEnv "Col1" "Col2" f1040_2025 (c5r2 :: [c5r3]) [] = []) :=
  claim_C5 defaultEnv "Col1" "Col2" f1040_2025 c5r2 [c5r3] [] (by decide)

/-- Counterexample for C5 as stated: with `skipEmptyRows = true`, the
headerless fallback branch still terminates at the empty-variable record
(the `Line 9` record after it is ignored and the extracted map is empty),
although the same pipeline without the empty record does map `Line 9`. -/
theorem claim_C5_cx :
    ((f1040parse defaultEnv [c5r1, c5r2, c5r3] ⟨2025, false, true⟩).formsData
      = [("f1040", [])])
  ∧ ((f1040parse defaultEnv [c5r1, c5r3] ⟨2025, false, true⟩).formsData
      = [("f1040", [("topmostSubform[0].Page1[0].f1_73[0]", JsVal.str "7")])]) := by
  constructor <;> decide

end Fill1040
